import Mathlib

/-!
Shallow embedding of the tick simulation core of the Colossi MMORPG vertical
slice (server/src/sim/tick.ts, plus calculateWarmth from the metrics module).

Numbers are modelled as exact rationals (ℚ) for the pipeline; the warmth
formula, which takes a real logarithm, is modelled separately over ℝ as
`calculateWarmth`, and the pipeline `tickSimulation` abstracts the warmth
computation as a function parameter `calcWarmth : ℚ → ℚ → ℚ` — the warmth value
never feeds back into resources, organelles, strain, coherence, stability or
events; it is only stored in the metrics, smoothed into `blah`, and compared
against 0.5 in the tier guard, so every pipeline theorem below is proved for
an arbitrary warmth function.

The `persist`/`broadcast` hooks are opaque side-effecting collaborators with
no effect on the returned state, so they are omitted from the embedding.
-/

structure Metrics where
  warmth : ℚ
  coherence : ℚ
  stability : ℚ
deriving DecidableEq, Repr

structure OrganelleState where
  capacity : ℚ
  efficiency : ℚ
  utilization : ℚ
deriving DecidableEq, Repr

structure PlayerAllocation where
  organelle : String
  utilization : ℚ
deriving DecidableEq, Repr

structure PlayerAction where
  playerId : String
  allocations : Option (List PlayerAllocation)
  harmony : Option ℚ
deriving DecidableEq, Repr

structure ResourceFlows where
  energy : ℚ
  nutrients : ℚ
deriving DecidableEq, Repr

inductive SimulationEventType where
  | anomaly
  | festival
  | repair
deriving DecidableEq, Repr

/-- Impact record of a simulation event; absent fields are `none`, mirroring
the optional fields of the TypeScript interface. -/
structure EventImpact where
  energy : Option ℚ := none
  nutrients : Option ℚ := none
  coherence : Option ℚ := none
  stability : Option ℚ := none
deriving DecidableEq, Repr

structure SimulationEvent where
  id : String
  type : SimulationEventType
  impact : EventImpact
deriving DecidableEq, Repr

structure Resources where
  energy : ℚ
  nutrients : ℚ
deriving DecidableEq, Repr

/-- The authoritative per-world snapshot. `organelles` models the TypeScript
`Record<string, OrganelleState>` as an association list with (by convention)
unique keys; insertion order is kept, matching `Object.values` enumeration. -/
structure SimulationState where
  tick : ℕ
  tier : ℕ
  metrics : Metrics
  resources : Resources
  organelles : List (String × OrganelleState)
  strain : ℚ
  blah : ℚ
  pendingActions : List PlayerAction
  activeEvents : List SimulationEvent
deriving DecidableEq, Repr

def MIN_UTILIZATION : ℚ := 0
def MAX_UTILIZATION : ℚ := 1

def clamp (value mn mx : ℚ) : ℚ :=
  min mx (max mn value)

def collectPlayerActions (state : SimulationState) : List PlayerAction :=
  state.pendingActions

/-- One allocation entry applied to the organelle map: the entry whose key
matches has the delta added to its utilization and the result clamped to
[0,1]; when no key matches (`!organelle` in the source) the map is unchanged. -/
def applyAllocation (orgs : List (String × OrganelleState))
    (allocation : PlayerAllocation) : List (String × OrganelleState) :=
  orgs.map fun p =>
    if p.1 = allocation.organelle then
      (p.1, { p.2 with
        utilization := clamp (p.2.utilization + allocation.utilization)
          MIN_UTILIZATION MAX_UTILIZATION })
    else p

def applyAllocations (state : SimulationState) (actions : List PlayerAction) :
    SimulationState :=
  { state with
    organelles := actions.foldl
      (fun orgs action => (action.allocations.getD []).foldl applyAllocation orgs)
      state.organelles }

def computeResourceFlows (state : SimulationState) : ResourceFlows :=
  let totals := state.organelles.foldl
    (fun (acc : ℚ × ℚ) p =>
      let output := p.2.capacity * p.2.efficiency * p.2.utilization
      (acc.1 + output, acc.2 - output * 0.6))
    (0, 0)
  { energy := totals.1, nutrients := totals.2 }

/-- Sum of `utilization` across all organelles, as accumulated by the
`reduce` in `computeStrain`. -/
def utilizationLoad (organelles : List (String × OrganelleState)) : ℚ :=
  organelles.foldl (fun sum p => sum + p.2.utilization) 0

def computeStrain (state : SimulationState) (flows : ResourceFlows) : ℚ :=
  let projectedNutrients := state.resources.nutrients + flows.nutrients
  let nutrientDebt := max 0 (-projectedNutrients)
  state.strain * 0.6 + nutrientDebt * 0.4 + utilizationLoad state.organelles * 0.2

def computeGainCost (flows : ResourceFlows) (strain : ℚ) : ℚ × ℚ :=
  (max 0 flows.energy, max 0 (-flows.nutrients) + strain * 0.5)

/-- Average of the `harmony` values (defaulting to 0 when absent) over the
given actions, 0 when there are none — the first half of `computeCoherence`. -/
def averageHarmony (actions : List PlayerAction) : ℚ :=
  let harmonyValues := actions.map fun action => action.harmony.getD 0
  if harmonyValues.length ≠ 0 then
    harmonyValues.foldl (fun sum value => sum + value) 0 / harmonyValues.length
  else 0

/-- Sum of the `coherence` impacts of the given events — the `eventBonus`
accumulator of `computeCoherence`. -/
def eventBonus (events : List SimulationEvent) : ℚ :=
  events.foldl (fun sum event => sum + event.impact.coherence.getD 0) 0

def computeCoherence (actions : List PlayerAction)
    (events : List SimulationEvent) : ℚ :=
  clamp (averageHarmony actions + eventBonus events) 0 1

def updateStability (state : SimulationState) (strain coherence : ℚ) : ℚ :=
  let base := state.metrics.stability
  let next := base + coherence * 0.4 - strain * 0.3
  clamp next 0 1

def updateBlah (metrics : Metrics) (current : ℚ) : ℚ :=
  let target := (metrics.warmth + metrics.stability + metrics.coherence) / 3
  current + (target - current) * 0.2

def anomalyEvent (tick : ℕ) : SimulationEvent :=
  { id := "anomaly-" ++ toString tick
    type := SimulationEventType.anomaly
    impact := { stability := some (-0.2), energy := some (-2) } }

def festivalEvent (tick : ℕ) : SimulationEvent :=
  { id := "festival-" ++ toString tick
    type := SimulationEventType.festival
    impact := { coherence := some 0.1, energy := some 1 } }

def repairEvent (tick : ℕ) : SimulationEvent :=
  { id := "repair-" ++ toString tick
    type := SimulationEventType.repair
    impact := { nutrients := some 2, stability := some 0.1 } }

/-- Event spawning, evaluated against the state as passed in: at its call
site inside `tickSimulation` the `strain` field still holds the previous
tick's value (the freshly computed strain is written to the state only after
this call), `metrics.coherence` holds the previous tick's coherence, and
`resources` have already had this tick's flows consumed. -/
def maybeSpawnEvents (state : SimulationState) : List SimulationEvent :=
  (if state.strain > 1.5 then [anomalyEvent state.tick] else []) ++
  (if state.metrics.coherence > 0.7 then [festivalEvent state.tick] else []) ++
  (if state.resources.nutrients < 1 then [repairEvent state.tick] else [])

/-- JavaScript truthiness on an optional numeric impact field: the update is
skipped when the field is absent or exactly 0. -/
def impactActive : Option ℚ → Prop
  | some v => v ≠ 0
  | none => False

instance (imp : Option ℚ) : Decidable (impactActive imp) :=
  match imp with
  | some v => inferInstanceAs (Decidable (v ≠ 0))
  | none => inferInstanceAs (Decidable False)

def applyEnergyImpact (state : SimulationState) (imp : Option ℚ) :
    SimulationState :=
  if impactActive imp then
    { state with resources :=
      { state.resources with energy := state.resources.energy + imp.getD 0 } }
  else state

def applyNutrientsImpact (state : SimulationState) (imp : Option ℚ) :
    SimulationState :=
  if impactActive imp then
    { state with resources :=
      { state.resources with nutrients := state.resources.nutrients + imp.getD 0 } }
  else state

def applyCoherenceImpact (state : SimulationState) (imp : Option ℚ) :
    SimulationState :=
  if impactActive imp then
    { state with metrics :=
      { state.metrics with
        coherence := clamp (state.metrics.coherence + imp.getD 0) 0 1 } }
  else state

def applyStabilityImpact (state : SimulationState) (imp : Option ℚ) :
    SimulationState :=
  if impactActive imp then
    { state with metrics :=
      { state.metrics with
        stability := clamp (state.metrics.stability + imp.getD 0) 0 1 } }
  else state

/-- The body of the `for` loop of `applyEvents`: the four optional impact
fields applied in source order (energy, nutrients, coherence, stability);
energy and nutrients are added unclamped, coherence and stability are clamped
to [0,1] on each addition. -/
def applyEventToState (state : SimulationState) (event : SimulationEvent) :
    SimulationState :=
  applyStabilityImpact
    (applyCoherenceImpact
      (applyNutrientsImpact
        (applyEnergyImpact state event.impact.energy)
        event.impact.nutrients)
      event.impact.coherence)
    event.impact.stability

def applyEvents (state : SimulationState) (events : List SimulationEvent) :
    SimulationState :=
  { events.foldl applyEventToState state with activeEvents := events }

def maybeProgressTier (state : SimulationState) : SimulationState :=
  if state.metrics.stability > 0.75 ∧ state.metrics.warmth > 0.5 then
    { state with tier := state.tier + 1 }
  else state

def consumeFlows (state : SimulationState) (flows : ResourceFlows) :
    SimulationState :=
  { state with resources :=
    { energy := max 0 (state.resources.energy + flows.energy)
      nutrients := max 0 (state.resources.nutrients + flows.nutrients) } }

/-- Everything `tickSimulation` does before `maybeProgressTier`, in source
order: drain actions, apply allocations, compute flows and strain, consume
flows, compute gain/cost and warmth, spawn events, compute coherence then
stability, store strain, smooth `blah`, apply the spawned events. -/
def runTickBeforeTier (calcWarmth : ℚ → ℚ → ℚ) (state : SimulationState) :
    SimulationState :=
  let actions := collectPlayerActions state
  let state := applyAllocations state actions
  let flows := computeResourceFlows state
  let strain := computeStrain state flows
  let state := consumeFlows state flows
  let gc := computeGainCost flows strain
  let state := { state with metrics :=
    { state.metrics with warmth := calcWarmth gc.1 gc.2 } }
  let events := maybeSpawnEvents state
  let state := { state with metrics :=
    { state.metrics with coherence := computeCoherence actions events } }
  let state := { state with metrics :=
    { state.metrics with
      stability := updateStability state strain state.metrics.coherence } }
  let state := { state with strain := strain }
  let state := { state with blah := updateBlah state.metrics state.blah }
  applyEvents state events

/-- The tick state-transition function of the simulation core, parametric in
the warmth formula (see the module docstring). -/
def tickSimulation (calcWarmth : ℚ → ℚ → ℚ) (state : SimulationState) :
    SimulationState :=
  let state := runTickBeforeTier calcWarmth state
  let state := maybeProgressTier state
  let state := { state with pendingActions := [] }
  { state with tick := state.tick + 1 }

/-- The warmth formula from the metrics module, over the reals:
`Math.log((gain + epsilon) / (cost + epsilon)) - k` with
`epsilon = 0.0001` and `k = 0.1`. -/
noncomputable def calculateWarmth (gain cost : ℝ) : ℝ :=
  let epsilon : ℝ := 0.0001
  let k : ℝ := 0.1
  Real.log ((gain + epsilon) / (cost + epsilon)) - k

/-! Named stages of the tick pipeline. These are definitionally equal to the
corresponding let-bound intermediate values inside `runTickBeforeTier`
(established by the `rfl`-lemma `runTickBeforeTier_eq` below) and let the
theorems talk about the state at a given point of the tick. -/

/-- State after `applyAllocations`. -/
def postAllocations (state : SimulationState) : SimulationState :=
  applyAllocations state (collectPlayerActions state)

/-- The resource flows computed this tick (post-allocation organelles). -/
def tickFlows (state : SimulationState) : ResourceFlows :=
  computeResourceFlows (postAllocations state)

/-- The strain computed this tick (pre-consumption nutrients). -/
def tickStrain (state : SimulationState) : ℚ :=
  computeStrain (postAllocations state) (tickFlows state)

/-- State at the `maybeSpawnEvents` call site: flows consumed, warmth freshly
written, everything else (in particular the `strain` field and
`metrics.coherence`) still holding the previous tick's values. -/
def spawnTimeState (calcWarmth : ℚ → ℚ → ℚ) (state : SimulationState) :
    SimulationState :=
  let s2 := consumeFlows (postAllocations state) (tickFlows state)
  let gc := computeGainCost (tickFlows state) (tickStrain state)
  { s2 with metrics := { s2.metrics with warmth := calcWarmth gc.1 gc.2 } }

/-- The events spawned this tick. -/
def tickEvents (calcWarmth : ℚ → ℚ → ℚ) (state : SimulationState) :
    List SimulationEvent :=
  maybeSpawnEvents (spawnTimeState calcWarmth state)

/-- State just before `applyEvents`: coherence, stability, strain and blah
all freshly written. -/
def preEventsState (calcWarmth : ℚ → ℚ → ℚ) (state : SimulationState) :
    SimulationState :=
  let st := spawnTimeState calcWarmth state
  let st := { st with metrics := { st.metrics with
    coherence := computeCoherence (collectPlayerActions state)
      (tickEvents calcWarmth state) } }
  let st := { st with metrics := { st.metrics with
    stability := updateStability st (tickStrain state) st.metrics.coherence } }
  let st := { st with strain := tickStrain state }
  { st with blah := updateBlah st.metrics st.blah }

/-! Concrete data used by the counterexamples and witnesses. -/

/-- A degenerate warmth function; the pipeline theorems hold for every
`calcWarmth`, and the concrete evaluations instantiate it with this one
(the warmth value never influences resources, organelles, strain, coherence,
stability or events). -/
def warmth0 : ℚ → ℚ → ℚ := fun _ _ => 0

/-- A state with no organelles and no actions, strain 2 (previous tick),
energy 1, nutrients 5: the tick spawns exactly one anomaly and its −2 energy
impact drives energy to −1. -/
def cexEnergyState : SimulationState :=
  { tick := 0, tier := 0
    metrics := { warmth := 0, coherence := 0, stability := 0 }
    resources := { energy := 1, nutrients := 5 }
    organelles := []
    strain := 2, blah := 0
    pendingActions := [], activeEvents := [] }

/-- A state whose stored strain is 1.4 (below the 1.5 trigger) but whose
freshly computed strain is 3.44 (above it): one organelle of capacity 10,
efficiency 1, utilization 1, with zero nutrients. -/
def cexStrainState : SimulationState :=
  { tick := 0, tier := 0
    metrics := { warmth := 0, coherence := 0, stability := 0 }
    resources := { energy := 0, nutrients := 0 }
    organelles := [("mito", { capacity := 10, efficiency := 1, utilization := 1 })]
    strain := 1.4, blah := 0
    pendingActions := [], activeEvents := [] }

/-- A quiet state that reaches tier evaluation with stability exactly 0.75:
no organelles, no actions, strain 0, coherence 0, nutrients 5 (no events
spawn, so stability stays at its clamped update value 0.75). -/
def tierBoundaryState : SimulationState :=
  { tick := 0, tier := 3
    metrics := { warmth := 0, coherence := 0, stability := 0.75 }
    resources := { energy := 0, nutrients := 5 }
    organelles := []
    strain := 0, blah := 0
    pendingActions := [], activeEvents := [] }

/-- A single organelle "m" at utilization 0, used by the allocation
scenarios. -/
def allocState : SimulationState :=
  { tick := 0, tier := 0
    metrics := { warmth := 0, coherence := 0, stability := 0 }
    resources := { energy := 0, nutrients := 0 }
    organelles := [("m", { capacity := 1, efficiency := 1, utilization := 0 })]
    strain := 0, blah := 0
    pendingActions := [], activeEvents := [] }

/-- A state entering the tick with coherence 0.8 (above the 0.7 festival
trigger), no actions, no other triggers. -/
def festState : SimulationState :=
  { tick := 7, tier := 0
    metrics := { warmth := 0, coherence := 0.8, stability := 0 }
    resources := { energy := 0, nutrients := 5 }
    organelles := []
    strain := 0, blah := 0
    pendingActions := [], activeEvents := [] }

/-- A pending action allocating two deltas to organelle "m". -/
def allocAction (d1 d2 : ℚ) : PlayerAction :=
  { playerId := "p"
    allocations := some [{ organelle := "m", utilization := d1 },
                         { organelle := "m", utilization := d2 }]
    harmony := none }

/-- A pending action whose single allocation names an organelle identifier
absent from `allocState.organelles`. -/
def unknownAllocAction : PlayerAction :=
  { playerId := "q"
    allocations := some [{ organelle := "nucleus", utilization := 0.5 }]
    harmony := none }

/-! Helper lemmas. -/

lemma clamp01_nonneg (v : ℚ) : 0 ≤ clamp v 0 1 := by
  unfold clamp
  simp [le_min_iff, le_max_iff]

lemma clamp01_le_one (v : ℚ) : clamp v 0 1 ≤ 1 := by
  unfold clamp
  exact min_le_left _ _

lemma clamp01_of_mem (v : ℚ) (h0 : 0 ≤ v) (h1 : v ≤ 1) : clamp v 0 1 = v := by
  unfold clamp
  rw [max_eq_right h0, min_eq_right h1]

/-- The staged form of `runTickBeforeTier`: the pipeline body is
definitionally the application of `applyEvents` to the pre-events state and
the spawned events. -/
lemma runTickBeforeTier_eq (f : ℚ → ℚ → ℚ) (s : SimulationState) :
    runTickBeforeTier f s = applyEvents (preEventsState f s) (tickEvents f s) :=
  rfl

lemma applyEventToState_fields (s : SimulationState) (e : SimulationEvent) :
    (applyEventToState s e).organelles = s.organelles ∧
    (applyEventToState s e).strain = s.strain ∧
    (applyEventToState s e).tick = s.tick ∧
    (applyEventToState s e).tier = s.tier ∧
    (applyEventToState s e).pendingActions = s.pendingActions ∧
    (applyEventToState s e).blah = s.blah ∧
    (applyEventToState s e).activeEvents = s.activeEvents := by
  unfold applyEventToState applyStabilityImpact applyCoherenceImpact
    applyNutrientsImpact applyEnergyImpact
  split_ifs <;> exact ⟨rfl, rfl, rfl, rfl, rfl, rfl, rfl⟩

lemma foldl_applyEventToState_fields (evs : List SimulationEvent) :
    ∀ s : SimulationState,
    (evs.foldl applyEventToState s).organelles = s.organelles ∧
    (evs.foldl applyEventToState s).strain = s.strain ∧
    (evs.foldl applyEventToState s).tick = s.tick ∧
    (evs.foldl applyEventToState s).tier = s.tier ∧
    (evs.foldl applyEventToState s).pendingActions = s.pendingActions ∧
    (evs.foldl applyEventToState s).blah = s.blah := by
  induction evs with
  | nil => intro s; exact ⟨rfl, rfl, rfl, rfl, rfl, rfl⟩
  | cons e rest ih =>
    intro s
    have he := applyEventToState_fields s e
    have hr := ih (applyEventToState s e)
    simp only [List.foldl_cons]
    exact ⟨hr.1.trans he.1, hr.2.1.trans he.2.1, hr.2.2.1.trans he.2.2.1,
      hr.2.2.2.1.trans he.2.2.2.1, hr.2.2.2.2.1.trans he.2.2.2.2.1,
      hr.2.2.2.2.2.trans he.2.2.2.2.2.1⟩

lemma applyEvents_activeEvents (s : SimulationState)
    (evs : List SimulationEvent) : (applyEvents s evs).activeEvents = evs :=
  rfl

lemma applyEvents_organelles (s : SimulationState)
    (evs : List SimulationEvent) :
    (applyEvents s evs).organelles = s.organelles :=
  (foldl_applyEventToState_fields evs s).1

lemma applyEvents_strain (s : SimulationState) (evs : List SimulationEvent) :
    (applyEvents s evs).strain = s.strain :=
  (foldl_applyEventToState_fields evs s).2.1

lemma applyEvents_tick (s : SimulationState) (evs : List SimulationEvent) :
    (applyEvents s evs).tick = s.tick :=
  (foldl_applyEventToState_fields evs s).2.2.1

lemma applyEvents_tier (s : SimulationState) (evs : List SimulationEvent) :
    (applyEvents s evs).tier = s.tier :=
  (foldl_applyEventToState_fields evs s).2.2.2.1

lemma maybeProgressTier_eq (s : SimulationState) :
    maybeProgressTier s =
      { s with tier :=
        if s.metrics.stability > 0.75 ∧ s.metrics.warmth > 0.5 then s.tier + 1
        else s.tier } := by
  unfold maybeProgressTier
  split_ifs <;> rfl

lemma maybeProgressTier_metrics (s : SimulationState) :
    (maybeProgressTier s).metrics = s.metrics := by
  rw [maybeProgressTier_eq]

lemma maybeProgressTier_resources (s : SimulationState) :
    (maybeProgressTier s).resources = s.resources := by
  rw [maybeProgressTier_eq]

lemma maybeProgressTier_organelles (s : SimulationState) :
    (maybeProgressTier s).organelles = s.organelles := by
  rw [maybeProgressTier_eq]

lemma maybeProgressTier_strain (s : SimulationState) :
    (maybeProgressTier s).strain = s.strain := by
  rw [maybeProgressTier_eq]

lemma maybeProgressTier_activeEvents (s : SimulationState) :
    (maybeProgressTier s).activeEvents = s.activeEvents := by
  rw [maybeProgressTier_eq]

lemma spawnTimeState_strain (f : ℚ → ℚ → ℚ) (s : SimulationState) :
    (spawnTimeState f s).strain = s.strain :=
  rfl

lemma spawnTimeState_tick (f : ℚ → ℚ → ℚ) (s : SimulationState) :
    (spawnTimeState f s).tick = s.tick :=
  rfl

lemma spawnTimeState_coherence (f : ℚ → ℚ → ℚ) (s : SimulationState) :
    (spawnTimeState f s).metrics.coherence = s.metrics.coherence :=
  rfl

lemma spawnTimeState_resources (f : ℚ → ℚ → ℚ) (s : SimulationState) :
    (spawnTimeState f s).resources =
      (consumeFlows (postAllocations s) (tickFlows s)).resources :=
  rfl

lemma preEventsState_strain (f : ℚ → ℚ → ℚ) (s : SimulationState) :
    (preEventsState f s).strain = tickStrain s :=
  rfl

lemma preEventsState_tier (f : ℚ → ℚ → ℚ) (s : SimulationState) :
    (preEventsState f s).tier = s.tier :=
  rfl

lemma preEventsState_resources (f : ℚ → ℚ → ℚ) (s : SimulationState) :
    (preEventsState f s).resources = (spawnTimeState f s).resources :=
  rfl

lemma preEventsState_coherence (f : ℚ → ℚ → ℚ) (s : SimulationState) :
    (preEventsState f s).metrics.coherence =
      computeCoherence (collectPlayerActions s) (tickEvents f s) :=
  rfl

lemma preEventsState_organelles (f : ℚ → ℚ → ℚ) (s : SimulationState) :
    (preEventsState f s).organelles = (postAllocations s).organelles :=
  rfl

lemma tickSimulation_activeEvents (f : ℚ → ℚ → ℚ) (s : SimulationState) :
    (tickSimulation f s).activeEvents = tickEvents f s := by
  show (maybeProgressTier (runTickBeforeTier f s)).activeEvents = _
  rw [maybeProgressTier_activeEvents, runTickBeforeTier_eq,
    applyEvents_activeEvents]

lemma tickSimulation_strain (f : ℚ → ℚ → ℚ) (s : SimulationState) :
    (tickSimulation f s).strain = tickStrain s := by
  show (maybeProgressTier (runTickBeforeTier f s)).strain = _
  rw [maybeProgressTier_strain, runTickBeforeTier_eq, applyEvents_strain,
    preEventsState_strain]

lemma tickSimulation_resources (f : ℚ → ℚ → ℚ) (s : SimulationState) :
    (tickSimulation f s).resources = (runTickBeforeTier f s).resources := by
  show (maybeProgressTier (runTickBeforeTier f s)).resources = _
  rw [maybeProgressTier_resources]

lemma tickSimulation_metrics (f : ℚ → ℚ → ℚ) (s : SimulationState) :
    (tickSimulation f s).metrics = (runTickBeforeTier f s).metrics := by
  show (maybeProgressTier (runTickBeforeTier f s)).metrics = _
  rw [maybeProgressTier_metrics]

lemma tickSimulation_organelles (f : ℚ → ℚ → ℚ) (s : SimulationState) :
    (tickSimulation f s).organelles = (postAllocations s).organelles := by
  show (maybeProgressTier (runTickBeforeTier f s)).organelles = _
  rw [maybeProgressTier_organelles, runTickBeforeTier_eq,
    applyEvents_organelles, preEventsState_organelles]

lemma tickSimulation_tier (f : ℚ → ℚ → ℚ) (s : SimulationState) :
    (tickSimulation f s).tier =
      if (runTickBeforeTier f s).metrics.stability > 0.75 ∧
          (runTickBeforeTier f s).metrics.warmth > 0.5 then
        s.tier + 1
      else s.tier := by
  show (maybeProgressTier (runTickBeforeTier f s)).tier = _
  rw [maybeProgressTier_eq]
  have htier : (runTickBeforeTier f s).tier = s.tier := by
    rw [runTickBeforeTier_eq, applyEvents_tier, preEventsState_tier]
  simp only [htier]

lemma applyEvents_resources_spawned (t u : SimulationState) :
    (applyEvents u (maybeSpawnEvents t)).resources.energy =
      u.resources.energy + (if t.strain > 1.5 then -2 else 0) +
        (if t.metrics.coherence > 0.7 then 1 else 0) ∧
    (applyEvents u (maybeSpawnEvents t)).resources.nutrients =
      u.resources.nutrients + (if t.resources.nutrients < 1 then 2 else 0) := by
  unfold maybeSpawnEvents applyEvents
  split_ifs <;>
    norm_num [applyEventToState, anomalyEvent, festivalEvent, repairEvent,
      applyEnergyImpact, applyNutrientsImpact, applyCoherenceImpact,
      applyStabilityImpact, impactActive]

lemma applyEvents_coherence_spawned (t u : SimulationState) :
    (applyEvents u (maybeSpawnEvents t)).metrics.coherence =
      if t.metrics.coherence > 0.7 then clamp (u.metrics.coherence + 0.1) 0 1
      else u.metrics.coherence := by
  unfold maybeSpawnEvents applyEvents
  split_ifs <;>
    norm_num [applyEventToState, anomalyEvent, festivalEvent, repairEvent,
      applyEnergyImpact, applyNutrientsImpact, applyCoherenceImpact,
      applyStabilityImpact, impactActive]

lemma anomaly_mem_spawn (t : SimulationState) :
    (∃ e ∈ maybeSpawnEvents t, e.type = SimulationEventType.anomaly) ↔
      1.5 < t.strain := by
  unfold maybeSpawnEvents
  split_ifs with h1 h2 h3 <;>
    simp_all [anomalyEvent, festivalEvent, repairEvent, gt_iff_lt]

lemma festival_mem_spawn (t : SimulationState) :
    (∃ e ∈ maybeSpawnEvents t, e.type = SimulationEventType.festival) ↔
      0.7 < t.metrics.coherence := by
  unfold maybeSpawnEvents
  split_ifs with h1 h2 h3 <;>
    simp_all [anomalyEvent, festivalEvent, repairEvent, gt_iff_lt]

lemma eventBonus_spawned (t : SimulationState) :
    eventBonus (maybeSpawnEvents t) =
      if t.metrics.coherence > 0.7 then 0.1 else 0 := by
  unfold maybeSpawnEvents eventBonus
  split_ifs <;>
    norm_num [anomalyEvent, festivalEvent, repairEvent]

lemma applyEventToState_metric_bounds (s : SimulationState)
    (e : SimulationEvent)
    (hc : 0 ≤ s.metrics.coherence ∧ s.metrics.coherence ≤ 1)
    (hs : 0 ≤ s.metrics.stability ∧ s.metrics.stability ≤ 1) :
    (0 ≤ (applyEventToState s e).metrics.coherence ∧
      (applyEventToState s e).metrics.coherence ≤ 1) ∧
    (0 ≤ (applyEventToState s e).metrics.stability ∧
      (applyEventToState s e).metrics.stability ≤ 1) := by
  unfold applyEventToState applyStabilityImpact applyCoherenceImpact
    applyNutrientsImpact applyEnergyImpact
  split_ifs <;>
    exact ⟨⟨by first | exact hc.1 | exact clamp01_nonneg _,
            by first | exact hc.2 | exact clamp01_le_one _⟩,
           ⟨by first | exact hs.1 | exact clamp01_nonneg _,
            by first | exact hs.2 | exact clamp01_le_one _⟩⟩

lemma foldl_applyEventToState_metric_bounds (evs : List SimulationEvent) :
    ∀ s : SimulationState,
    (0 ≤ s.metrics.coherence ∧ s.metrics.coherence ≤ 1) →
    (0 ≤ s.metrics.stability ∧ s.metrics.stability ≤ 1) →
    (0 ≤ (evs.foldl applyEventToState s).metrics.coherence ∧
      (evs.foldl applyEventToState s).metrics.coherence ≤ 1) ∧
    (0 ≤ (evs.foldl applyEventToState s).metrics.stability ∧
      (evs.foldl applyEventToState s).metrics.stability ≤ 1) := by
  induction evs with
  | nil => intro s hc hs; exact ⟨hc, hs⟩
  | cons e rest ih =>
    intro s hc hs
    have he := applyEventToState_metric_bounds s e hc hs
    exact ih (applyEventToState s e) he.1 he.2

lemma applyEvents_metric_bounds (s : SimulationState)
    (evs : List SimulationEvent)
    (hc : 0 ≤ s.metrics.coherence ∧ s.metrics.coherence ≤ 1)
    (hs : 0 ≤ s.metrics.stability ∧ s.metrics.stability ≤ 1) :
    (0 ≤ (applyEvents s evs).metrics.coherence ∧
      (applyEvents s evs).metrics.coherence ≤ 1) ∧
    (0 ≤ (applyEvents s evs).metrics.stability ∧
      (applyEvents s evs).metrics.stability ≤ 1) :=
  foldl_applyEventToState_metric_bounds evs s hc hs

lemma applyAllocation_bounds (orgs : List (String × OrganelleState))
    (a : PlayerAllocation)
    (h : ∀ p ∈ orgs, 0 ≤ p.2.utilization ∧ p.2.utilization ≤ 1) :
    ∀ p ∈ applyAllocation orgs a,
      0 ≤ p.2.utilization ∧ p.2.utilization ≤ 1 := by
  intro p hp
  unfold applyAllocation at hp
  rw [List.mem_map] at hp
  obtain ⟨q, hq, hpq⟩ := hp
  by_cases hk : q.1 = a.organelle
  · rw [if_pos hk] at hpq
    subst hpq
    simp only [MIN_UTILIZATION, MAX_UTILIZATION]
    exact ⟨clamp01_nonneg _, clamp01_le_one _⟩
  · rw [if_neg hk] at hpq
    subst hpq
    exact h q hq

lemma foldl_applyAllocation_bounds (allocs : List PlayerAllocation) :
    ∀ orgs : List (String × OrganelleState),
    (∀ p ∈ orgs, 0 ≤ p.2.utilization ∧ p.2.utilization ≤ 1) →
    ∀ p ∈ allocs.foldl applyAllocation orgs,
      0 ≤ p.2.utilization ∧ p.2.utilization ≤ 1 := by
  induction allocs with
  | nil => intro orgs h; exact h
  | cons a rest ih =>
    intro orgs h
    exact ih (applyAllocation orgs a) (applyAllocation_bounds orgs a h)

lemma applyAllocations_bounds (actions : List PlayerAction) :
    ∀ s : SimulationState,
    (∀ p ∈ s.organelles, 0 ≤ p.2.utilization ∧ p.2.utilization ≤ 1) →
    ∀ p ∈ (applyAllocations s actions).organelles,
      0 ≤ p.2.utilization ∧ p.2.utilization ≤ 1 := by
  have main : ∀ (acts : List PlayerAction)
      (orgs : List (String × OrganelleState)),
      (∀ p ∈ orgs, 0 ≤ p.2.utilization ∧ p.2.utilization ≤ 1) →
      ∀ p ∈ acts.foldl
        (fun orgs action => (action.allocations.getD []).foldl applyAllocation orgs)
        orgs,
        0 ≤ p.2.utilization ∧ p.2.utilization ≤ 1 := by
    intro acts
    induction acts with
    | nil => intro orgs h; exact h
    | cons act rest ih =>
      intro orgs h
      exact ih _ (foldl_applyAllocation_bounds (act.allocations.getD []) orgs h)
  intro s h
  exact main actions s.organelles h

lemma foldl_add_map_eq_sum {α : Type} (g : α → ℚ) (l : List α) :
    ∀ a : ℚ, l.foldl (fun sum x => sum + g x) a = a + (l.map g).sum := by
  induction l with
  | nil => intro a; simp
  | cons x rest ih =>
    intro a
    simp only [List.foldl_cons, List.map_cons, List.sum_cons, ih]
    ring

lemma eventBonus_eq_sum (events : List SimulationEvent) :
    eventBonus events = (events.map fun e => e.impact.coherence.getD 0).sum := by
  unfold eventBonus
  rw [foldl_add_map_eq_sum (fun e => e.impact.coherence.getD 0) events]
  ring

lemma foldl_add_eq_sum (l : List ℚ) :
    ∀ a : ℚ, l.foldl (fun sum value => sum + value) a = a + l.sum := by
  induction l with
  | nil => intro a; simp
  | cons x rest ih =>
    intro a
    simp only [List.foldl_cons, List.sum_cons, ih]
    ring

lemma averageHarmony_eq_sum (actions : List PlayerAction) :
    averageHarmony actions =
      (actions.map fun a => a.harmony.getD 0).sum / actions.length := by
  unfold averageHarmony
  rcases actions with _ | ⟨act, rest⟩
  · simp
  · have hlen : ((act :: rest).map fun a => a.harmony.getD 0).length ≠ 0 := by
      simp
    rw [if_pos hlen, foldl_add_eq_sum ((act :: rest).map fun a => a.harmony.getD 0) 0]
    simp

lemma preEventsState_energy_nonneg (f : ℚ → ℚ → ℚ) (s : SimulationState) :
    0 ≤ (preEventsState f s).resources.energy :=
  le_max_left _ _

lemma preEventsState_nutrients_nonneg (f : ℚ → ℚ → ℚ) (s : SimulationState) :
    0 ≤ (preEventsState f s).resources.nutrients :=
  le_max_left _ _

/-- C1 counterexample: from `cexEnergyState` (energy 1, previous strain 2, no
organelles, no actions, nutrients 5) the tick spawns exactly one anomaly and
its −2 energy impact, applied after the ≥0 clamp of `consumeFlows`, leaves
`resources.energy = −1 < 0`. -/
theorem tick_energy_negative_cex :
    (tickSimulation warmth0 cexEnergyState).resources.energy = -1 ∧
    (tickSimulation warmth0 cexEnergyState).resources.energy < 0 := by
  constructor <;>
    norm_num [tickSimulation, runTickBeforeTier, cexEnergyState, warmth0,
      collectPlayerActions, applyAllocations, computeResourceFlows, computeStrain,
      utilizationLoad, consumeFlows, computeGainCost, maybeSpawnEvents,
      anomalyEvent, festivalEvent, repairEvent, computeCoherence, averageHarmony,
      eventBonus, updateStability, updateBlah, applyEvents, applyEventToState,
      applyEnergyImpact, applyNutrientsImpact, applyCoherenceImpact,
      applyStabilityImpact, impactActive, maybeProgressTier, clamp]

/-- C1 (amended): after every tick `resources.nutrients ≥ 0` always holds;
`resources.energy` is ≥ 0 right after flow consumption but event application
adds the anomaly's −2 unclamped afterwards, so the final energy is only
guaranteed ≥ −2, and it stays ≥ 0 whenever no anomaly fires (previous strain
≤ 1.5). -/
theorem tick_resources_lower_bounds (f : ℚ → ℚ → ℚ) (s : SimulationState) :
    0 ≤ (tickSimulation f s).resources.nutrients ∧
    -2 ≤ (tickSimulation f s).resources.energy ∧
    (s.strain ≤ 1.5 → 0 ≤ (tickSimulation f s).resources.energy) := by
  have hres : (tickSimulation f s).resources =
      (applyEvents (preEventsState f s) (maybeSpawnEvents (spawnTimeState f s))).resources := by
    rw [tickSimulation_resources, runTickBeforeTier_eq]
    rfl
  have hchar :=
    applyEvents_resources_spawned (spawnTimeState f s) (preEventsState f s)
  have hE0 := preEventsState_energy_nonneg f s
  have hN0 := preEventsState_nutrients_nonneg f s
  refine ⟨?_, ?_, ?_⟩
  · rw [hres, hchar.2]
    split_ifs <;> linarith
  · rw [hres, hchar.1]
    split_ifs <;> linarith
  · intro hstrain
    rw [hres, hchar.1]
    have hno : ¬ (spawnTimeState f s).strain > 1.5 := by
      rw [spawnTimeState_strain]
      exact not_lt.mpr hstrain
    rw [if_neg hno]
    split_ifs <;> linarith

/-- C1 witness: at `allocState` (previous strain 0 ≤ 1.5) the amended
theorem gives nutrients ≥ 0 and energy ≥ 0 after the tick. -/
theorem tick_resources_lower_bounds_witness :
    0 ≤ (tickSimulation warmth0 allocState).resources.nutrients ∧
    0 ≤ (tickSimulation warmth0 allocState).resources.energy :=
  ⟨(tick_resources_lower_bounds warmth0 allocState).1,
   (tick_resources_lower_bounds warmth0 allocState).2.2
     (by norm_num [allocState])⟩

/-- C2 counterexample: from `cexStrainState` the freshly computed strain of
the tick is 3.44 > 1.5 (it is the value stored in the returned state), yet
the tick spawns no anomaly — only a repair — because the trigger read the
previous tick's stored strain 1.4. -/
theorem anomaly_stale_strain_cex :
    (tickSimulation warmth0 cexStrainState).strain = 3.44 ∧
    1.5 < (tickSimulation warmth0 cexStrainState).strain ∧
    (tickSimulation warmth0 cexStrainState).activeEvents.map SimulationEvent.type =
      [SimulationEventType.repair] := by
  refine ⟨?_, ?_, ?_⟩ <;>
    norm_num [tickSimulation, runTickBeforeTier, cexStrainState, warmth0,
      collectPlayerActions, applyAllocations, computeResourceFlows, computeStrain,
      utilizationLoad, consumeFlows, computeGainCost, maybeSpawnEvents,
      anomalyEvent, festivalEvent, repairEvent, computeCoherence, averageHarmony,
      eventBonus, updateStability, updateBlah, applyEvents, applyEventToState,
      applyEnergyImpact, applyNutrientsImpact, applyCoherenceImpact,
      applyStabilityImpact, impactActive, maybeProgressTier, clamp]

/-- C2 (amended): the anomaly trigger is evaluated against the previous
tick's stored strain — a tick spawns an anomaly event exactly when the
`strain` field of the input state (not the freshly computed strain) exceeds
1.5. -/
theorem anomaly_spawn_iff_prev_strain (f : ℚ → ℚ → ℚ) (s : SimulationState) :
    (∃ e ∈ (tickSimulation f s).activeEvents,
      e.type = SimulationEventType.anomaly) ↔ 1.5 < s.strain := by
  rw [tickSimulation_activeEvents]
  show (∃ e ∈ maybeSpawnEvents (spawnTimeState f s), _) ↔ _
  rw [anomaly_mem_spawn, spawnTimeState_strain]

lemma preEventsState_metric_bounds (f : ℚ → ℚ → ℚ) (s : SimulationState) :
    (0 ≤ (preEventsState f s).metrics.coherence ∧
      (preEventsState f s).metrics.coherence ≤ 1) ∧
    (0 ≤ (preEventsState f s).metrics.stability ∧
      (preEventsState f s).metrics.stability ≤ 1) := by
  refine ⟨⟨?_, ?_⟩, ?_, ?_⟩
  · exact clamp01_nonneg _
  · exact clamp01_le_one _
  · exact clamp01_nonneg _
  · exact clamp01_le_one _

/-- C3: if every organelle utilization, `metrics.coherence` and
`metrics.stability` lie in [0,1] entering the tick, they all still do after
`tickSimulation`: every write to those fields passes through `clamp`. -/
theorem tick_preserves_bounds (f : ℚ → ℚ → ℚ) (s : SimulationState)
    (hu : ∀ p ∈ s.organelles, 0 ≤ p.2.utilization ∧ p.2.utilization ≤ 1)
    (_hc : 0 ≤ s.metrics.coherence ∧ s.metrics.coherence ≤ 1)
    (_hs : 0 ≤ s.metrics.stability ∧ s.metrics.stability ≤ 1) :
    (∀ p ∈ (tickSimulation f s).organelles,
      0 ≤ p.2.utilization ∧ p.2.utilization ≤ 1) ∧
    (0 ≤ (tickSimulation f s).metrics.coherence ∧
      (tickSimulation f s).metrics.coherence ≤ 1) ∧
    (0 ≤ (tickSimulation f s).metrics.stability ∧
      (tickSimulation f s).metrics.stability ≤ 1) := by
  have hmet : (tickSimulation f s).metrics =
      (applyEvents (preEventsState f s) (tickEvents f s)).metrics := by
    rw [tickSimulation_metrics, runTickBeforeTier_eq]
  have hpre := preEventsState_metric_bounds f s
  have hev := applyEvents_metric_bounds (preEventsState f s) (tickEvents f s)
    hpre.1 hpre.2
  refine ⟨?_, ?_, ?_⟩
  · rw [tickSimulation_organelles]
    exact applyAllocations_bounds (collectPlayerActions s) s hu
  · rw [hmet]
    exact hev.1
  · rw [hmet]
    exact hev.2

/-- C3 witness: from `cexStrainState` (one organelle at utilization 1, all
metrics in range) the bounds hold after the tick. -/
theorem tick_preserves_bounds_witness :
    (∀ p ∈ (tickSimulation warmth0 cexStrainState).organelles,
      0 ≤ p.2.utilization ∧ p.2.utilization ≤ 1) ∧
    (0 ≤ (tickSimulation warmth0 cexStrainState).metrics.coherence ∧
      (tickSimulation warmth0 cexStrainState).metrics.coherence ≤ 1) ∧
    (0 ≤ (tickSimulation warmth0 cexStrainState).metrics.stability ∧
      (tickSimulation warmth0 cexStrainState).metrics.stability ≤ 1) :=
  tick_preserves_bounds warmth0 cexStrainState
    (by intro p hp; norm_num [cexStrainState] at hp; rw [hp]; norm_num)
    (by norm_num [cexStrainState])
    (by norm_num [cexStrainState])

/-- C4: the strain stored by the tick equals
`strain_prev * 0.6 + nutrientDebt * 0.4 + utilizationLoad * 0.2`, where the
nutrient debt is computed from the pre-consumption nutrient value of the
input state and the load is the utilization sum over the (post-allocation)
organelles; when debt and load are both 0 the strain simply decays to
`strain_prev * 0.6`. -/
theorem tick_strain_formula (f : ℚ → ℚ → ℚ) (s : SimulationState) :
    ((tickSimulation f s).strain =
      s.strain * 0.6 +
        max 0 (-(s.resources.nutrients + (tickFlows s).nutrients)) * 0.4 +
        utilizationLoad (postAllocations s).organelles * 0.2) ∧
    (max 0 (-(s.resources.nutrients + (tickFlows s).nutrients)) = 0 →
      utilizationLoad (postAllocations s).organelles = 0 →
      (tickSimulation f s).strain = s.strain * 0.6) := by
  have h1 : (tickSimulation f s).strain =
      s.strain * 0.6 +
        max 0 (-(s.resources.nutrients + (tickFlows s).nutrients)) * 0.4 +
        utilizationLoad (postAllocations s).organelles * 0.2 := by
    rw [tickSimulation_strain]
    rfl
  refine ⟨h1, fun hd hl => ?_⟩
  rw [h1, hd, hl]
  ring

/-- C4 witness: at `festState` (no organelles, nutrients 5) the debt and the
load are 0 and the tick's strain is exactly the 0.6-decay of the previous
strain. -/
theorem tick_strain_formula_witness :
    (tickSimulation warmth0 festState).strain = festState.strain * 0.6 :=
  (tick_strain_formula warmth0 festState).2
    (by norm_num [festState, tickFlows, postAllocations, applyAllocations,
      collectPlayerActions, computeResourceFlows])
    (by norm_num [festState, utilizationLoad, postAllocations,
      applyAllocations, collectPlayerActions])

/-- C6: the tick increments `tier` by exactly 1 when the state reaching tier
evaluation (i.e. after event application, `runTickBeforeTier`) has
`stability > 0.75` and `warmth > 0.5`, and leaves it unchanged otherwise; in
particular stability exactly 0.75 does not increment, and tier never
decreases. -/
theorem tick_tier_progression (f : ℚ → ℚ → ℚ) (s : SimulationState) :
    ((tickSimulation f s).tier =
      if (runTickBeforeTier f s).metrics.stability > 0.75 ∧
          (runTickBeforeTier f s).metrics.warmth > 0.5 then s.tier + 1
      else s.tier) ∧
    ((runTickBeforeTier f s).metrics.stability = 0.75 →
      (tickSimulation f s).tier = s.tier) ∧
    s.tier ≤ (tickSimulation f s).tier := by
  have h1 := tickSimulation_tier f s
  refine ⟨h1, fun heq => ?_, ?_⟩
  · rw [h1, if_neg]
    rintro ⟨hlt, -⟩
    rw [heq] at hlt
    exact lt_irrefl _ hlt
  · rw [h1]
    split_ifs <;> omega

/-- C6 witness: from `tierBoundaryState` the state reaching tier evaluation
has stability exactly 0.75, and the tier is unchanged (it stays 3). -/
theorem tick_tier_progression_witness :
    (tickSimulation warmth0 tierBoundaryState).tier = tierBoundaryState.tier :=
  (tick_tier_progression warmth0 tierBoundaryState).2.1
    (by norm_num [runTickBeforeTier, tierBoundaryState, warmth0,
      collectPlayerActions, applyAllocations, computeResourceFlows,
      computeStrain, utilizationLoad, consumeFlows, computeGainCost,
      maybeSpawnEvents, anomalyEvent, festivalEvent, repairEvent,
      computeCoherence, averageHarmony, eventBonus, updateStability,
      updateBlah, applyEvents, applyEventToState, applyEnergyImpact,
      applyNutrientsImpact, applyCoherenceImpact, applyStabilityImpact,
      impactActive, clamp])

/-- C5: `calculateWarmth gain cost = ln((gain + 1e-4) / (cost + 1e-4)) − 0.1`
for all non-negative gain and cost; in particular
`calculateWarmth 0 0 = ln 1 − 0.1 = −0.1`. -/
theorem calculateWarmth_formula :
    (∀ gain cost : ℝ, 0 ≤ gain → 0 ≤ cost →
      calculateWarmth gain cost =
        Real.log ((gain + 0.0001) / (cost + 0.0001)) - 0.1) ∧
    calculateWarmth 0 0 = Real.log 1 - 0.1 ∧
    calculateWarmth 0 0 = -0.1 := by
  have hbase : ∀ gain cost : ℝ,
      calculateWarmth gain cost =
        Real.log ((gain + 0.0001) / (cost + 0.0001)) - 0.1 :=
    fun _ _ => rfl
  have hone : ((0 : ℝ) + 0.0001) / ((0 : ℝ) + 0.0001) = 1 := by norm_num
  refine ⟨fun g c _ _ => hbase g c, ?_, ?_⟩
  · rw [hbase, hone]
  · rw [hbase, hone, Real.log_one]
    norm_num

/-- C5 witness: the formula instantiated at gain 1, cost 2. -/
theorem calculateWarmth_formula_witness :
    calculateWarmth 1 2 = Real.log ((1 + 0.0001) / (2 + 0.0001)) - 0.1 :=
  calculateWarmth_formula.1 1 2 (by norm_num) (by norm_num)

lemma computeResourceFlows_foldl (l : List (String × OrganelleState)) :
    ∀ a b : ℚ,
      l.foldl
        (fun (acc : ℚ × ℚ) p =>
          let output := p.2.capacity * p.2.efficiency * p.2.utilization
          (acc.1 + output, acc.2 - output * 0.6))
        (a, b) =
      (a + (l.map fun p => p.2.capacity * p.2.efficiency * p.2.utilization).sum,
       b - 0.6 * (l.map fun p => p.2.capacity * p.2.efficiency * p.2.utilization).sum) := by
  induction l with
  | nil => intro a b; simp
  | cons p rest ih =>
    intro a b
    simp only [List.foldl_cons, List.map_cons, List.sum_cons, ih,
      Prod.mk.injEq]
    constructor <;> ring

/-- C7: the resource flows are energy = Σ capacity × efficiency × utilization
over all organelles and nutrients = −0.6 × that same sum, and the result
depends only on the organelle map (the state is not modified — the embedding
of `computeResourceFlows` returns flows without touching the state). -/
theorem computeResourceFlows_spec (s : SimulationState) :
    ((computeResourceFlows s).energy =
      (s.organelles.map fun p =>
        p.2.capacity * p.2.efficiency * p.2.utilization).sum) ∧
    ((computeResourceFlows s).nutrients =
      -0.6 * (s.organelles.map fun p =>
        p.2.capacity * p.2.efficiency * p.2.utilization).sum) ∧
    (∀ t : SimulationState, s.organelles = t.organelles →
      computeResourceFlows s = computeResourceFlows t) := by
  refine ⟨?_, ?_, ?_⟩
  · show (s.organelles.foldl _ ((0 : ℚ), (0 : ℚ))).1 = _
    rw [computeResourceFlows_foldl s.organelles 0 0]
    ring
  · show (s.organelles.foldl _ ((0 : ℚ), (0 : ℚ))).2 = _
    rw [computeResourceFlows_foldl s.organelles 0 0]
    ring
  · intro t h
    unfold computeResourceFlows
    rw [h]

/-- C7 witness: two states sharing the (empty) organelle map get identical
flows. -/
theorem computeResourceFlows_spec_witness :
    computeResourceFlows cexEnergyState = computeResourceFlows festState :=
  (computeResourceFlows_spec cexEnergyState).2.2 festState
    (by norm_num [cexEnergyState, festState])

/-- C8: `computeCoherence` returns
`clamp(averageHarmony + eventBonus, 0, 1)` where the average is the mean of
the actions' harmony values (0 when absent) — 0 when there are no actions —
and the bonus is the sum of the events' coherence impacts. -/
theorem computeCoherence_spec (actions : List PlayerAction)
    (events : List SimulationEvent) :
    (computeCoherence actions events =
      clamp ((actions.map fun a => a.harmony.getD 0).sum / actions.length +
        (events.map fun e => e.impact.coherence.getD 0).sum) 0 1) ∧
    (actions = [] →
      computeCoherence actions events =
        clamp ((events.map fun e => e.impact.coherence.getD 0).sum) 0 1) := by
  have h1 : computeCoherence actions events =
      clamp ((actions.map fun a => a.harmony.getD 0).sum / actions.length +
        (events.map fun e => e.impact.coherence.getD 0).sum) 0 1 := by
    unfold computeCoherence
    rw [averageHarmony_eq_sum, eventBonus_eq_sum]
  refine ⟨h1, fun hnil => ?_⟩
  subst hnil
  rw [h1]
  norm_num

/-- C8 witness: with no actions and one festival event the coherence is the
clamped event bonus. -/
theorem computeCoherence_spec_witness :
    computeCoherence [] [festivalEvent 0] =
      clamp (([festivalEvent 0].map fun e => e.impact.coherence.getD 0).sum) 0 1 :=
  (computeCoherence_spec [] [festivalEvent 0]).2 rfl

lemma applyAllocation_id (orgs : List (String × OrganelleState))
    (a : PlayerAllocation) (h : ∀ p ∈ orgs, p.1 ≠ a.organelle) :
    applyAllocation orgs a = orgs := by
  unfold applyAllocation
  induction orgs with
  | nil => rfl
  | cons p rest ih =>
    simp only [List.map_cons]
    rw [if_neg (h p (List.mem_cons_self p rest))]
    rw [ih fun q hq => h q (List.mem_cons_of_mem p hq)]

lemma foldl_applyAllocation_id (allocs : List PlayerAllocation)
    (orgs : List (String × OrganelleState))
    (h : ∀ a ∈ allocs, ∀ p ∈ orgs, p.1 ≠ a.organelle) :
    allocs.foldl applyAllocation orgs = orgs := by
  induction allocs with
  | nil => rfl
  | cons a rest ih =>
    simp only [List.foldl_cons]
    rw [applyAllocation_id orgs a (h a (List.mem_cons_self a rest))]
    exact ih fun b hb => h b (List.mem_cons_of_mem a hb)

/-- C9: from utilization 0 the allocation pairs (+0.3, +0.3) and (+0.7, +0.7)
yield final utilizations 0.6 and 1.0 (the clamped sum is the same in either
application order — both orders are the same multiset of deltas); and
allocations naming only unknown organelle identifiers leave the state
unchanged. -/
theorem applyAllocations_spec :
    ((applyAllocations allocState [allocAction 0.3 0.3]).organelles.map
      fun p => p.2.utilization) = [0.6] ∧
    ((applyAllocations allocState [allocAction 0.7 0.7]).organelles.map
      fun p => p.2.utilization) = [1] ∧
    (∀ (s : SimulationState) (actions : List PlayerAction),
      (∀ action ∈ actions, ∀ alloc ∈ action.allocations.getD [],
        ∀ p ∈ s.organelles, p.1 ≠ alloc.organelle) →
      applyAllocations s actions = s) := by
  refine ⟨?_, ?_, ?_⟩
  · norm_num [applyAllocations, allocState, allocAction, applyAllocation,
      clamp, MIN_UTILIZATION, MAX_UTILIZATION]
  · norm_num [applyAllocations, allocState, allocAction, applyAllocation,
      clamp, MIN_UTILIZATION, MAX_UTILIZATION]
  · intro s actions h
    unfold applyAllocations
    have hfold : actions.foldl
        (fun orgs action => (action.allocations.getD []).foldl applyAllocation orgs)
        s.organelles = s.organelles := by
      induction actions with
      | nil => rfl
      | cons act rest ih =>
        simp only [List.foldl_cons]
        rw [foldl_applyAllocation_id (act.allocations.getD []) s.organelles
          (fun a ha p hp => h act (List.mem_cons_self act rest) a ha p hp)]
        exact ih fun b hb => h b (List.mem_cons_of_mem act hb)
    rw [hfold]

/-- C9 witness: an action allocating to the unknown organelle "nucleus"
leaves `allocState` unchanged. -/
theorem applyAllocations_spec_witness :
    applyAllocations allocState [unknownAllocAction] = allocState :=
  applyAllocations_spec.2.2 allocState [unknownAllocAction]
    (by
      intro action ha alloc hal p hp
      norm_num [unknownAllocAction, allocState] at ha hp
      subst ha
      simp only [Option.getD_some, List.mem_singleton] at hal
      rw [hp, hal]
      decide)

/-- C10: when a festival spawns (previous coherence > 0.7), its +0.1
coherence impact enters `metrics.coherence` twice in the same tick: once as
the event bonus inside `computeCoherence` (the bonus of the spawned events is
exactly 0.1) and once more, clamped, inside `applyEvents` — the final
coherence is `clamp(computeCoherence + 0.1)`, i.e. +0.2 in total absent
clamping. -/
theorem festival_coherence_double_count (f : ℚ → ℚ → ℚ) (s : SimulationState)
    (h : 0.7 < s.metrics.coherence) :
    (∃ e ∈ (tickSimulation f s).activeEvents,
      e.type = SimulationEventType.festival) ∧
    eventBonus (tickEvents f s) = 0.1 ∧
    computeCoherence (collectPlayerActions s) (tickEvents f s) =
      clamp (averageHarmony (collectPlayerActions s) + 0.1) 0 1 ∧
    (tickSimulation f s).metrics.coherence =
      clamp (computeCoherence (collectPlayerActions s) (tickEvents f s) + 0.1)
        0 1 := by
  have hcond : (spawnTimeState f s).metrics.coherence > 0.7 := by
    rw [spawnTimeState_coherence]
    exact h
  have hbonus : eventBonus (tickEvents f s) = 0.1 := by
    show eventBonus (maybeSpawnEvents (spawnTimeState f s)) = 0.1
    rw [eventBonus_spawned, if_pos hcond]
  refine ⟨?_, hbonus, ?_, ?_⟩
  · rw [tickSimulation_activeEvents]
    show ∃ e ∈ maybeSpawnEvents (spawnTimeState f s), _
    rw [festival_mem_spawn, spawnTimeState_coherence]
    exact h
  · unfold computeCoherence
    rw [hbonus]
  · have hcoh : (tickSimulation f s).metrics.coherence =
        (applyEvents (preEventsState f s)
          (maybeSpawnEvents (spawnTimeState f s))).metrics.coherence := by
      rw [tickSimulation_metrics, runTickBeforeTier_eq]
      rfl
    rw [hcoh, applyEvents_coherence_spawned, if_pos hcond,
      preEventsState_coherence]

/-- C10 witness: from `festState` (coherence 0.8, no actions) the final
coherence is the clamped sum of the coherence computed this tick and the
festival's second +0.1. -/
theorem festival_coherence_double_count_witness :
    (tickSimulation warmth0 festState).metrics.coherence =
      clamp (computeCoherence (collectPlayerActions festState)
        (tickEvents warmth0 festState) + 0.1) 0 1 :=
  (festival_coherence_double_count warmth0 festState
    (by norm_num [festState])).2.2.2
